import Mathlib

/-!
Verification of the rule lifecycle server in xstream/server/server/server.go:
the rule registry, the lifecycle controller (create/start/stop/restart/drop),
the ad-hoc query path (CreateQuery / GetQueryResult / stopQuery), the status
reporter (GetStatusRule) and the ad-hoc query watchdog (the ticker loop in
init).  External collaborators — the rule store (processors), the pipeline
engine (xstream.TopologyNew internals), fmt %q quoting and json.Indent — are
modelled as oracle functions collected in Env.  Go maps become association
lists, Go pointer mutation of a registry entry becomes replacement of that
entry, and the cancellation of an execution handle is recorded both as a flag
on the handle and in a global cancellation log, so that a handle cancelled
and then deleted from the registry remains observable.
-/

namespace Kuiper

/-- Go error values observed by the server: the two context sentinels
(context.Canceled, context.DeadlineExceeded) and arbitrary other errors. -/
inductive GoErr where
  | canceled
  | deadlineExceeded
  | other (msg : String)
  deriving DecidableEq, Repr

/-- Rendering of a Go error by fmt %v / %s: the sentinels have their fixed
messages, other errors carry their own text. -/
def GoErr.text : GoErr → String
  | .canceled => "context canceled"
  | .deadlineExceeded => "context deadline exceeded"
  | .other m => m

/-- The cancellation-token-like context attached to a running topology:
its Err accessor yields the terminal error recorded so far (none while the
pipeline is live). -/
structure Ctx where
  err : Option GoErr
  deriving DecidableEq, Repr

/-- Execution handle (xstream.TopologyNew), opaque to the core.  tid is the
instance identity (a fresh Go allocation gets a fresh tid), ctx models
GetContext (none when no context was set), cancelled records whether Cancel
was invoked on this instance. -/
structure TopologyNew where
  tid : Nat
  ctx : Option Ctx
  cancelled : Bool
  deriving DecidableEq, Repr

/-- One registry entry (type RuleState in server.go). -/
structure RuleState where
  Name : String
  Topology : TopologyNew
  Triggered : Bool
  deriving DecidableEq, Repr

/-- The rule registry: Go map from rule id to *RuleState, embedded as an
association list with map semantics (regPut replaces, regDel removes). -/
abbrev RuleRegistry := List (String × RuleState)

/-- Go map read registry[k]. -/
def regGet : RuleRegistry → String → Option RuleState
  | [], _ => none
  | (k1, v1) :: t, k => if k1 = k then some v1 else regGet t k

/-- Go map write registry[k] = v (replaces an existing binding). -/
def regPut : RuleRegistry → String → RuleState → RuleRegistry
  | [], k, v => [(k, v)]
  | (k1, v1) :: t, k, v => if k1 = k then (k, v) :: t else (k1, v1) :: regPut t k v

/-- Go delete(registry, k). -/
def regDel : RuleRegistry → String → RuleRegistry
  | [], _ => []
  | (k1, v1) :: t, k => if k1 = k then regDel t k else (k1, v1) :: regDel t k

/-- The shared ad-hoc query result buffer sinks.QR: accumulated result
fragments plus the last-fetch timestamp (seconds, signed like Go time
arithmetic).  The mutex is not modelled: operations are atomic steps. -/
structure QueryResultBuf where
  LastFetch : Int
  Results : List String
  deriving DecidableEq, Repr

/-- The whole mutable server state: the registry, the result buffer, the log
of topology instances that received Cancel (newest first), and the supply of
fresh topology instance identities. -/
structure ServerState where
  registry : RuleRegistry
  qr : QueryResultBuf
  cancelLog : List Nat
  nextTid : Nat
  deriving DecidableEq, Repr

/-- A metric value as handed back by GetMetrics: the reporter only
distinguishes string-typed values (rendered with %q) from the rest
(rendered with %v). -/
inductive MetricValue where
  | str (s : String)
  | num (n : Int)
  deriving DecidableEq, Repr

/-- A persisted rule descriptor (api.Rule); only the Id field is consumed by
the lifecycle controller. -/
structure Rule where
  Id : String
  deriving DecidableEq, Repr

/-- Oracles for the external collaborators: the rule store
(ExecQuery / ExecDrop / GetRuleByName / ExecInitRule), the metrics snapshot
of a topology instance, fmt %q quoting, and json.Indent.  ExecQuery and
ExecInitRule answer with the initial context of the freshly built topology;
the fresh instance identity itself is drawn from ServerState.nextTid. -/
structure Env where
  execQuery : String → Except GoErr (Option Ctx)
  execDrop : String → Except GoErr String
  getRuleByName : String → Except GoErr Rule
  execInitRule : Rule → Except GoErr (Option Ctx)
  getMetrics : Nat → List String × List MetricValue
  fmtQ : String → String
  jsonIndent : String → Except GoErr String

/-- The reserved id of the ad-hoc query entry (const QUERY_RULE_ID). -/
def QUERY_RULE_ID : String := "internal-xstream_query_rule"

/-- stopQuery: if the reserved entry exists, cancel its topology and delete
the entry from the registry. -/
def stopQuery (s : ServerState) : ServerState :=
  match regGet s.registry QUERY_RULE_ID with
  | some rs =>
      { s with
        cancelLog := rs.Topology.tid :: s.cancelLog
        registry := regDel s.registry QUERY_RULE_ID }
  | none => s

/-- CreateQuery: if an ad-hoc query entry exists, stopQuery first; then ask
the store to compile and start the new query (ExecQuery); on failure return
the error (the previous entry stays removed); on success register the fresh
topology under QUERY_RULE_ID with Triggered true. -/
def CreateQuery (env : Env) (sql : String) (s : ServerState) :
    ServerState × Except GoErr String :=
  let s1 := if (regGet s.registry QUERY_RULE_ID).isSome then stopQuery s else s
  match env.execQuery sql with
  | .error e => (s1, .error e)
  | .ok ctx0 =>
      let tp : TopologyNew := { tid := s1.nextTid, ctx := ctx0, cancelled := false }
      let rs : RuleState := { Name := QUERY_RULE_ID, Topology := tp, Triggered := true }
      ({ s1 with
          registry := regPut s1.registry QUERY_RULE_ID rs
          nextTid := s1.nextTid + 1 },
       .ok "Query was submit successfully.")

/-- The guard at the top of GetQueryResult: the terminal error of the ad-hoc
query entry's context, when the entry exists and its context is non-nil. -/
def queryCtxErr (s : ServerState) : Option GoErr :=
  match regGet s.registry QUERY_RULE_ID with
  | some rs =>
      match rs.Topology.ctx with
      | some c => c.err
      | none => none
  | none => none

/-- GetQueryResult (qid is unused by the code): if the query entry exists and
its context carries an error, return that error; otherwise stamp LastFetch
with the current time and, under the buffer lock, join and return all
fragments, resetting the buffer with make([]string, 10) — ten empty strings —
when it was non-empty, or return the empty string when it was empty. -/
def GetQueryResult (now : Int) (qid : String) (s : ServerState) :
    ServerState × Except GoErr String :=
  match queryCtxErr s with
  | some e => (s, .error e)
  | none =>
      if s.qr.Results.length > 0 then
        ({ s with qr := { LastFetch := now, Results := List.replicate 10 "" } },
         .ok (String.join s.qr.Results))
      else
        ({ s with qr := { s.qr with LastFetch := now } }, .ok "")

/-- One metric pair rendered by the reporter loop:
fmt.Sprintf with %q for strings and %v otherwise. -/
def renderMetricValue (env : Env) (v : MetricValue) : String :=
  match v with
  | .str s2 => env.fmtQ s2
  | .num n => toString n

/-- The body of the metrics object built by the loop in GetStatusRule:
one key/value fragment per pair, each ending in a comma. -/
def metricsFragments (env : Env) (pairs : List (String × MetricValue)) : String :=
  String.join (pairs.map (fun p => "\"" ++ p.1 ++ "\":" ++ renderMetricValue env p.2 ++ ","))

/-- The full metrics reply of a live rule: build the JSON-ish object, drop the
trailing comma, close the brace, pretty-print through json.Indent when it
succeeds, and prefix the result. -/
def metricsText (env : Env) (tp : TopologyNew) : String :=
  let km := env.getMetrics tp.tid
  let raw := "\x7b" ++ metricsFragments env (km.1.zip km.2)
  let metrics := raw.dropRight 1 ++ "\x7d"
  match env.jsonIndent metrics with
  | .error _ => "Running with metrics:\n" ++ metrics
  | .ok d => "Running with metrics:\n" ++ d

/-- GetStatusRule: not found is an error; a non-triggered entry reports
manual cancellation; otherwise classify the context error: nil means live
(metrics block), the two sentinels have fixed literals, anything else is
rendered with its message; a missing context is the defensive case. -/
def GetStatusRule (env : Env) (name : String) (s : ServerState) :
    ServerState × Except GoErr String :=
  match regGet s.registry name with
  | some rs =>
      match rs.Triggered with
      | false => (s, .ok "Stopped: canceled manually.")
      | true =>
          match rs.Topology.ctx with
          | some c =>
              match c.err with
              | none => (s, .ok (metricsText env rs.Topology))
              | some GoErr.canceled => (s, .ok "Stopped: canceled by error.")
              | some GoErr.deadlineExceeded => (s, .ok "Stopped: deadline exceed.")
              | some (GoErr.other m) => (s, .ok ("Stopped: " ++ m ++ "."))
          | none => (s, .ok "Stopped: no context found.")
  | none => (s, .error (GoErr.other ("Rule " ++ name ++ " is not found")))

/-- createRuleState: ask the store to initialize the rule (ExecInitRule);
on success build a fresh topology and register a new RuleState with
Triggered true under the rule's id, overwriting any prior entry. -/
def createRuleState (env : Env) (r : Rule) (s : ServerState) :
    ServerState × Except GoErr RuleState :=
  match env.execInitRule r with
  | .error e => (s, .error e)
  | .ok ctx0 =>
      let tp : TopologyNew := { tid := s.nextTid, ctx := ctx0, cancelled := false }
      let rs : RuleState := { Name := r.Id, Topology := tp, Triggered := true }
      ({ s with registry := regPut s.registry r.Id rs, nextTid := s.nextTid + 1 },
       .ok rs)

/-- doStartRule on the entry stored under key: sets Triggered true on that
entry (pointer mutation in Go).  The monitor goroutine it spawns is
asynchronous; its later effect is the separate pipelineDone transition. -/
def doStartRule (key : String) (s : ServerState) : ServerState :=
  match regGet s.registry key with
  | some rs => { s with registry := regPut s.registry key { rs with Triggered := true } }
  | none => s

/-- StartRule: reuse the existing registry entry when there is one (only
re-triggering it), otherwise look the rule up in the store, initialize a
fresh state, and start it. -/
def StartRule (env : Env) (name : String) (s : ServerState) :
    ServerState × Except GoErr String :=
  match regGet s.registry name with
  | some _ => (doStartRule name s, .ok ("Rule " ++ name ++ " was started"))
  | none =>
      match env.getRuleByName name with
      | .error e => (s, .error e)
      | .ok r =>
          match createRuleState env r s with
          | (s1, .error e) => (s1, .error e)
          | (s1, .ok rs) => (doStartRule rs.Name s1, .ok ("Rule " ++ name ++ " was started"))

/-- The asynchronous completion of the monitor goroutine spawned by
doStartRule for the entry under key: record the pipeline's terminal error on
the topology's context (SetError) and cancel the topology.  When the entry is
gone or its context is nil the transition is a no-op here (Go would nil-panic
on SetError; Triggered is untouched either way). -/
def pipelineDone (key : String) (e : Option GoErr) (s : ServerState) : ServerState :=
  match regGet s.registry key with
  | some rs =>
      match rs.Topology.ctx with
      | some _ =>
          let tp : TopologyNew :=
            { rs.Topology with ctx := some { err := e }, cancelled := true }
          { s with
            registry := regPut s.registry key { rs with Topology := tp }
            cancelLog := rs.Topology.tid :: s.cancelLog }
      | none => s
  | none => s

/-- StopRule: when the entry exists, cancel its topology and set Triggered
false, confirming the stop; when it does not, return the informational
not-found reply.  Never an error. -/
def StopRule (name : String) (s : ServerState) : ServerState × Except GoErr String :=
  match regGet s.registry name with
  | some rs =>
      ({ s with
          registry :=
            regPut s.registry name
              { rs with Topology := { rs.Topology with cancelled := true }, Triggered := false }
          cancelLog := rs.Topology.tid :: s.cancelLog },
       .ok ("Rule " ++ name ++ " was stopped."))
  | none => (s, .ok ("Rule " ++ name ++ " was not found."))

/-- RestartRule: StopRule then StartRule, propagating either failure, then
the restarted confirmation. -/
def RestartRule (env : Env) (name : String) (s : ServerState) :
    ServerState × Except GoErr String :=
  match StopRule name s with
  | (s1, .error e) => (s1, .error e)
  | (s1, .ok _) =>
      match StartRule env name s1 with
      | (s2, .error e) => (s2, .error e)
      | (s2, .ok _) => (s2, .ok ("Rule " ++ name ++ " was restarted."))

/-- DropRule: ask the store to delete the persisted definition (ExecDrop),
wrapping a store failure; then StopRule, and reply with the store's drop
message. -/
def DropRule (env : Env) (name : String) (s : ServerState) :
    ServerState × Except GoErr String :=
  match env.execDrop name with
  | .error e => (s, .error (GoErr.other ("Drop rule error : " ++ e.text ++ ".")))
  | .ok r =>
      match StopRule name s with
      | (s1, .error e) => (s1, .error e)
      | (s1, .ok _) => (s1, .ok r)

/-- The watchdog ticker interval from init, in seconds. -/
def tickerIntervalSeconds : Int := 5

/-- The staleness window w in the watchdog loop, in seconds. -/
def reclaimWindowSeconds : Int := 10

/-- One tick of the watchdog loop in init: when the reserved entry exists and
now - LastFetch has reached the 10-second window, stopQuery; otherwise no
change. -/
def watchdogTick (now : Int) (s : ServerState) : ServerState :=
  match regGet s.registry QUERY_RULE_ID with
  | none => s
  | some _ =>
      if reclaimWindowSeconds ≤ now - s.qr.LastFetch then stopQuery s else s

/-! ### Registry lemmas (Go map semantics of the association list) -/

theorem regGet_regPut_self (r : RuleRegistry) (k : String) (v : RuleState) :
    regGet (regPut r k v) k = some v := by
  induction r with
  | nil => simp [regPut, regGet]
  | cons hd t ih =>
      obtain ⟨k1, v1⟩ := hd
      by_cases h : k1 = k
      · simp [regPut, h, regGet]
      · simp [regPut, h, regGet, ih]

theorem regGet_regPut_ne (r : RuleRegistry) (k k2 : String) (v : RuleState)
    (h : k2 ≠ k) : regGet (regPut r k v) k2 = regGet r k2 := by
  have hks : k ≠ k2 := Ne.symm h
  induction r with
  | nil => simp [regPut, regGet, hks]
  | cons hd t ih =>
      obtain ⟨k1, v1⟩ := hd
      by_cases h1 : k1 = k
      · subst h1
        simp [regPut, regGet, hks]
      · simp [regPut, h1, regGet, ih]

theorem regGet_regDel_self (r : RuleRegistry) (k : String) :
    regGet (regDel r k) k = none := by
  induction r with
  | nil => simp [regDel, regGet]
  | cons hd t ih =>
      obtain ⟨k1, v1⟩ := hd
      by_cases h : k1 = k
      · simp [regDel, h, ih]
      · simp [regDel, h, regGet, ih]

theorem regGet_regDel_ne (r : RuleRegistry) (k k2 : String) (h : k2 ≠ k) :
    regGet (regDel r k) k2 = regGet r k2 := by
  have hks : k ≠ k2 := Ne.symm h
  induction r with
  | nil => simp [regDel]
  | cons hd t ih =>
      obtain ⟨k1, v1⟩ := hd
      by_cases h1 : k1 = k
      · subst h1
        simp [regDel, regGet, hks, ih]
      · simp [regDel, h1, regGet, ih]

/-! ### Concrete fixtures used by the witness theorems -/

/-- A live topology instance with a clean context. -/
def tpW : TopologyNew := { tid := 0, ctx := some { err := none }, cancelled := false }

/-- A registered, running rule named r1. -/
def rsW : RuleState := { Name := "r1", Topology := tpW, Triggered := true }

/-- An empty result buffer. -/
def bufW : QueryResultBuf := { LastFetch := 0, Results := [] }

/-- A server state holding just the running rule r1. -/
def stW : ServerState := { registry := [("r1", rsW)], qr := bufW, cancelLog := [], nextTid := 1 }

/-- An everything-succeeds oracle environment. -/
def envW : Env :=
  { execQuery := fun _ => .ok (some { err := none })
    execDrop := fun _ => .ok "Rule r1 is dropped."
    getRuleByName := fun n => .ok { Id := n }
    execInitRule := fun _ => .ok (some { err := none })
    getMetrics := fun _ => ([], [])
    fmtQ := fun s2 => "\"" ++ s2 ++ "\""
    jsonIndent := fun s2 => .ok s2 }

/-- An oracle environment whose query compilation always fails. -/
def envF : Env :=
  { envW with execQuery := fun _ => .error (GoErr.other "compile failed") }

/-- A running ad-hoc query entry with a clean context. -/
def rsQ : RuleState :=
  { Name := QUERY_RULE_ID
    Topology := { tid := 0, ctx := some { err := none }, cancelled := false }
    Triggered := true }

/-- A server state with an active ad-hoc query and two buffered fragments. -/
def stQ : ServerState :=
  { registry := [(QUERY_RULE_ID, rsQ)]
    qr := { LastFetch := 0, Results := ["a", "b"] }
    cancelLog := []
    nextTid := 1 }

/-- An ad-hoc query entry whose pipeline died with an error. -/
def rsQE : RuleState :=
  { Name := QUERY_RULE_ID
    Topology := { tid := 0, ctx := some { err := some (GoErr.other "boom") }, cancelled := false }
    Triggered := true }

/-- A server state whose ad-hoc query pipeline has recorded a terminal error. -/
def stQE : ServerState :=
  { registry := [(QUERY_RULE_ID, rsQE)]
    qr := { LastFetch := 0, Results := ["a"] }
    cancelLog := []
    nextTid := 1 }

/-- A rule whose pipeline terminated with the deadline-exceeded sentinel. -/
def rsDL : RuleState :=
  { Name := "r1"
    Topology := { tid := 0, ctx := some { err := some GoErr.deadlineExceeded }, cancelled := true }
    Triggered := true }

/-- A server state holding only that deadline-exceeded rule. -/
def stDL : ServerState := { registry := [("r1", rsDL)], qr := bufW, cancelLog := [], nextTid := 1 }

/-! ### Sequences of non-start control operations

For the persistence part of claim C5 ("every subsequent getStatus, until
another start") we close the post-stop state under the server operations
that are not starts: StopRule, DropRule, GetStatusRule, GetQueryResult, and
the asynchronous completion of a monitor goroutine.  (StartRule, CreateRule,
RestartRule and CreateQuery are the operations that set Triggered back to
true.) -/

/-- A non-start server operation. -/
inductive CtrlOp where
  | stopOp (name : String)
  | dropOp (name : String)
  | statusOp (name : String)
  | fetchOp (now : Int) (qid : String)
  | doneOp (name : String) (e : Option GoErr)
  deriving Repr

/-- The state transformation of one non-start operation. -/
def applyOp (env : Env) (s : ServerState) : CtrlOp → ServerState
  | .stopOp n => (StopRule n s).1
  | .dropOp n => (DropRule env n s).1
  | .statusOp n => (GetStatusRule env n s).1
  | .fetchOp now qid => (GetQueryResult now qid s).1
  | .doneOp n e => pipelineDone n e s

/-- Running a sequence of non-start operations. -/
def applyOps (env : Env) (ops : List CtrlOp) (s : ServerState) : ServerState :=
  ops.foldl (applyOp env) s

/-- The rule id is registered with Triggered false (deliberately stopped). -/
def stoppedAt (s : ServerState) (id : String) : Prop :=
  ∃ rs, regGet s.registry id = some rs ∧ rs.Triggered = false

theorem GetStatusRule_state_eq (env : Env) (n : String) (s : ServerState) :
    (GetStatusRule env n s).1 = s := by
  unfold GetStatusRule
  repeat' split
  all_goals rfl

theorem GetQueryResult_registry_eq (now : Int) (qid : String) (s : ServerState) :
    (GetQueryResult now qid s).1.registry = s.registry := by
  unfold GetQueryResult
  split
  · rfl
  · split <;> rfl

theorem stoppedAt_StopRule (n : String) (s : ServerState) (id : String)
    (h : stoppedAt s id) : stoppedAt (StopRule n s).1 id := by
  obtain ⟨rs, hg, ht⟩ := h
  cases hreg : regGet s.registry n with
  | none => exact ⟨rs, by simpa [StopRule, hreg] using hg, ht⟩
  | some rsn =>
      by_cases hid : id = n
      · subst hid
        have hput : regGet (StopRule id s).1.registry id = some { rsn with Topology := { rsn.Topology with cancelled := true }, Triggered := false } := by
          simp [StopRule, hreg, regGet_regPut_self]
        exact ⟨_, hput, rfl⟩
      · refine ⟨rs, ?_, ht⟩
        simp only [StopRule, hreg]
        rw [regGet_regPut_ne _ _ _ _ hid]
        exact hg

theorem stoppedAt_DropRule (env : Env) (n : String) (s : ServerState) (id : String)
    (h : stoppedAt s id) : stoppedAt (DropRule env n s).1 id := by
  cases hd : env.execDrop n with
  | error e => simpa [DropRule, hd] using h
  | ok r =>
      have h1 := stoppedAt_StopRule n s id h
      cases hs : StopRule n s with
      | mk s1 res =>
          rw [hs] at h1
          cases res <;> simpa [DropRule, hd, hs] using h1

theorem stoppedAt_pipelineDone (n : String) (e : Option GoErr) (s : ServerState)
    (id : String) (h : stoppedAt s id) : stoppedAt (pipelineDone n e s) id := by
  obtain ⟨rs, hg, ht⟩ := h
  cases hreg : regGet s.registry n with
  | none => exact ⟨rs, by simpa [pipelineDone, hreg] using hg, ht⟩
  | some rsn =>
      cases hctx : rsn.Topology.ctx with
      | none => exact ⟨rs, by simpa [pipelineDone, hreg, hctx] using hg, ht⟩
      | some c =>
          by_cases hid : id = n
          · subst hid
            have hrr : rs = rsn := by
              rw [hg] at hreg
              exact Option.some.inj hreg
            have hput : regGet (pipelineDone id e s).registry id = some { rsn with Topology := { rsn.Topology with ctx := some { err := e }, cancelled := true } } := by
              simp [pipelineDone, hreg, hctx, regGet_regPut_self]
            refine ⟨_, hput, ?_⟩
            show rsn.Triggered = false
            rw [← hrr]
            exact ht
          · refine ⟨rs, ?_, ht⟩
            simp only [pipelineDone, hreg, hctx]
            rw [regGet_regPut_ne _ _ _ _ hid]
            exact hg

theorem stoppedAt_applyOp (env : Env) (op : CtrlOp) (s : ServerState) (id : String)
    (h : stoppedAt s id) : stoppedAt (applyOp env s op) id := by
  cases op with
  | stopOp n => exact stoppedAt_StopRule n s id h
  | dropOp n => exact stoppedAt_DropRule env n s id h
  | statusOp n => simpa [applyOp, GetStatusRule_state_eq] using h
  | fetchOp now qid =>
      obtain ⟨rs, hg, ht⟩ := h
      refine ⟨rs, ?_, ht⟩
      show regGet (GetQueryResult now qid s).1.registry id = some rs
      rw [GetQueryResult_registry_eq]
      exact hg
  | doneOp n e => exact stoppedAt_pipelineDone n e s id h

theorem stoppedAt_applyOps (env : Env) (ops : List CtrlOp) (s : ServerState)
    (id : String) (h : stoppedAt s id) : stoppedAt (applyOps env ops s) id := by
  induction ops generalizing s with
  | nil => simpa [applyOps] using h
  | cons op t ih =>
      simpa [applyOps] using ih (applyOp env s op) (stoppedAt_applyOp env op s id h)

/-! ### Claim theorems -/

/-- Every metrics reply produced by the reporter starts with the fixed
prefix "Running with metrics:" followed by a newline; a string whose first
character is not R can therefore never be a metrics reply. -/
theorem running_ne (m t : String) (h : t.data.head? ≠ some 'R') :
    ("Running with metrics:\n" ++ m) ≠ t := by
  intro he
  apply h
  rw [← he]
  rw [String.data_append]
  rfl

/-- Claim C6: for a Registry entry with Triggered true whose topology context
carries the deadline-exceeded sentinel, GetStatusRule returns exactly the
literal "Stopped: deadline exceed." (which is not a metrics block, as the
metrics reply always starts with "Running with metrics:"), and leaves the
state unchanged. -/
theorem getStatus_deadline_literal (env : Env) (name : String) (s : ServerState)
    (rs : RuleState)
    (hreg : regGet s.registry name = some rs)
    (htrig : rs.Triggered = true)
    (hctx : rs.Topology.ctx = some { err := some GoErr.deadlineExceeded }) :
    GetStatusRule env name s = (s, Except.ok "Stopped: deadline exceed.") ∧
    ∀ m : String, Except.ok ("Running with metrics:\n" ++ m) ≠ (GetStatusRule env name s).2 := by
  have h1 : GetStatusRule env name s = (s, Except.ok "Stopped: deadline exceed.") := by
    simp [GetStatusRule, hreg, htrig, hctx]
  refine ⟨h1, fun m => ?_⟩
  rw [h1]
  simp only [ne_eq, Except.ok.injEq]
  exact running_ne m _ (by decide)

theorem getStatus_deadline_literal_witness :
    GetStatusRule envW "r1" stDL = (stDL, Except.ok "Stopped: deadline exceed.") ∧
    Except.ok ("Running with metrics:\n" ++ "x") ≠ (GetStatusRule envW "r1" stDL).2 :=
  ⟨(getStatus_deadline_literal envW "r1" stDL rsDL rfl rfl rfl).1,
   (getStatus_deadline_literal envW "r1" stDL rsDL rfl rfl rfl).2 "x"⟩

/-- Claim C8: StopRule on an id with no Registry entry succeeds (no error)
with the informational reply "Rule (id) was not found." and leaves the whole
server state unchanged. -/
theorem stopRule_unknown_id_not_error (name : String) (s : ServerState)
    (h : regGet s.registry name = none) :
    StopRule name s = (s, Except.ok ("Rule " ++ name ++ " was not found.")) := by
  simp [StopRule, h]

theorem stopRule_unknown_id_not_error_witness :
    StopRule "nope" stW = (stW, Except.ok ("Rule " ++ "nope" ++ " was not found.")) :=
  stopRule_unknown_id_not_error "nope" stW (by decide)

/-- Claim C9: when the ad-hoc query entry exists and its topology context
reports a non-nil terminal error, GetQueryResult returns that error and does
not touch the result buffer (the state is returned unchanged). -/
theorem getQueryResult_surfaces_pipeline_error (now : Int) (qid : String)
    (s : ServerState) (rs : RuleState) (c : Ctx) (e : GoErr)
    (h1 : regGet s.registry QUERY_RULE_ID = some rs)
    (h2 : rs.Topology.ctx = some c)
    (h3 : c.err = some e) :
    GetQueryResult now qid s = (s, Except.error e) := by
  simp [GetQueryResult, queryCtxErr, h1, h2, h3]

theorem getQueryResult_surfaces_pipeline_error_witness :
    GetQueryResult 7 "q" stQE = (stQE, Except.error (GoErr.other "boom")) :=
  getQueryResult_surfaces_pipeline_error 7 "q" stQE rsQE { err := some (GoErr.other "boom") }
    (GoErr.other "boom") rfl rfl rfl

/-- Claim C10: when CreateQuery is called while a previous ad-hoc query entry
exists and the compilation of the new query fails, the call returns the
error, yet the previous entry has already been cancelled (its topology id is
in the cancellation log) and removed, so no ad-hoc query entry remains. -/
theorem createQuery_failure_leaves_no_entry (env : Env) (sql : String)
    (s : ServerState) (rs0 : RuleState) (e : GoErr)
    (h1 : regGet s.registry QUERY_RULE_ID = some rs0)
    (h2 : env.execQuery sql = .error e) :
    CreateQuery env sql s = (stopQuery s, Except.error e) ∧
    regGet (stopQuery s).registry QUERY_RULE_ID = none ∧
    rs0.Topology.tid ∈ (stopQuery s).cancelLog := by
  refine ⟨?_, ?_, ?_⟩
  · simp [CreateQuery, h1, h2]
  · simp [stopQuery, h1, regGet_regDel_self]
  · simp [stopQuery, h1]

theorem createQuery_failure_leaves_no_entry_witness :
    CreateQuery envF "select 1" stQ = (stopQuery stQ, Except.error (GoErr.other "compile failed")) ∧
    regGet (stopQuery stQ).registry QUERY_RULE_ID = none ∧
    rsQ.Topology.tid ∈ (stopQuery stQ).cancelLog :=
  createQuery_failure_leaves_no_entry envF "select 1" stQ rsQ (GoErr.other "compile failed") rfl rfl

/-- Claim C4: whenever CreateQuery is called while an ad-hoc query entry
exists and the new query compiles, the previous entry's topology is cancelled
(recorded in the cancellation log) and the reserved id afterwards maps to
exactly the freshly built entry (Triggered true, fresh instance id
s.nextTid); since every ad-hoc query lives under the single reserved id,
after two successive CreateQuery calls exactly one active query entry
remains. -/
theorem createQuery_cancels_previous (env : Env) (sql : String) (s : ServerState)
    (rs0 : RuleState) (ctx0 : Option Ctx)
    (h1 : regGet s.registry QUERY_RULE_ID = some rs0)
    (h2 : env.execQuery sql = .ok ctx0) :
    (CreateQuery env sql s).2 = Except.ok "Query was submit successfully." ∧
    rs0.Topology.tid ∈ (CreateQuery env sql s).1.cancelLog ∧
    regGet (CreateQuery env sql s).1.registry QUERY_RULE_ID =
      some { Name := QUERY_RULE_ID
             Topology := { tid := s.nextTid, ctx := ctx0, cancelled := false }
             Triggered := true } := by
  refine ⟨?_, ?_, ?_⟩
  · simp [CreateQuery, h1, h2]
  · simp [CreateQuery, h1, h2, stopQuery]
  · simp [CreateQuery, h1, h2, stopQuery, regGet_regPut_self]

theorem createQuery_cancels_previous_witness :
    (CreateQuery envW "select 2" stQ).2 = Except.ok "Query was submit successfully." ∧
    rsQ.Topology.tid ∈ (CreateQuery envW "select 2" stQ).1.cancelLog ∧
    regGet (CreateQuery envW "select 2" stQ).1.registry QUERY_RULE_ID =
      some { Name := QUERY_RULE_ID
             Topology := { tid := stQ.nextTid, ctx := some { err := none }, cancelled := false }
             Triggered := true } :=
  createQuery_cancels_previous envW "select 2" stQ rsQ (some { err := none }) rfl rfl

/-- Claim C7: one watchdog tick (the 5-second ticker loop body in init) is a
no-op when the reserved ad-hoc query entry is absent, or when the entry is
present but the buffer's lastFetch is fresher than the 10-second window; when
the entry is present and now - lastFetch has reached the window, the tick
cancels the entry's topology (logging its instance id) and removes the entry
from the Registry. -/
theorem watchdogTick_reclaims_stale_query (now : Int) (s : ServerState) :
    (regGet s.registry QUERY_RULE_ID = none → watchdogTick now s = s) ∧
    (∀ rs, regGet s.registry QUERY_RULE_ID = some rs →
      (reclaimWindowSeconds ≤ now - s.qr.LastFetch →
        regGet (watchdogTick now s).registry QUERY_RULE_ID = none ∧
        rs.Topology.tid ∈ (watchdogTick now s).cancelLog) ∧
      (now - s.qr.LastFetch < reclaimWindowSeconds → watchdogTick now s = s)) := by
  refine ⟨fun h => by simp [watchdogTick, h], fun rs h => ⟨fun hle => ?_, fun hlt => ?_⟩⟩
  · constructor
    · simp [watchdogTick, h, hle, stopQuery, regGet_regDel_self]
    · simp [watchdogTick, h, hle, stopQuery]
  · simp [watchdogTick, h, not_le.mpr hlt]

theorem watchdogTick_reclaims_stale_query_witness :
    (regGet (watchdogTick 30 stQ).registry QUERY_RULE_ID = none ∧
      rsQ.Topology.tid ∈ (watchdogTick 30 stQ).cancelLog) ∧
    watchdogTick 3 stQ = stQ ∧
    watchdogTick 30 stW = stW :=
  ⟨((watchdogTick_reclaims_stale_query 30 stQ).2 rsQ rfl).1 (by decide),
   ((watchdogTick_reclaims_stale_query 3 stQ).2 rsQ rfl).2 (by decide),
   (watchdogTick_reclaims_stale_query 30 stW).1 rfl⟩

/-- Claim C5: once StopRule has run on a registered rule id, getStatus on
that id reports the exact literal "Stopped: canceled manually." — and never a
metrics block — after any sequence of further non-start operations, which in
particular covers the pipeline terminating on its own (doneOp) with an
arbitrary context error. -/
theorem stopRule_then_status_canceled_manually (env : Env) (id : String)
    (s : ServerState) (rs : RuleState)
    (h : regGet s.registry id = some rs) (ops : List CtrlOp) :
    GetStatusRule env id (applyOps env ops (StopRule id s).1) =
      (applyOps env ops (StopRule id s).1, Except.ok "Stopped: canceled manually.") ∧
    ∀ m : String, Except.ok ("Running with metrics:\n" ++ m) ≠
      (GetStatusRule env id (applyOps env ops (StopRule id s).1)).2 := by
  have h0 : stoppedAt (StopRule id s).1 id := by
    have hput : regGet (StopRule id s).1.registry id = some { rs with Topology := { rs.Topology with cancelled := true }, Triggered := false } := by
      simp [StopRule, h, regGet_regPut_self]
    exact ⟨_, hput, rfl⟩
  obtain ⟨rs2, hg2, ht2⟩ := stoppedAt_applyOps env ops (StopRule id s).1 id h0
  have h1 : GetStatusRule env id (applyOps env ops (StopRule id s).1) =
      (applyOps env ops (StopRule id s).1, Except.ok "Stopped: canceled manually.") := by
    simp [GetStatusRule, hg2, ht2]
  refine ⟨h1, fun m => ?_⟩
  rw [h1]
  simp only [ne_eq, Except.ok.injEq]
  exact running_ne m _ (by decide)

/-- A concrete sequence of non-start operations for the C5 witness: the
pipeline of r1 finishes on its own with the deadline sentinel, status and
fetch are polled, an unrelated drop and a second stop happen. -/
def opsW : List CtrlOp :=
  [CtrlOp.doneOp "r1" (some GoErr.deadlineExceeded), CtrlOp.statusOp "r1",
   CtrlOp.fetchOp 3 "q", CtrlOp.dropOp "zzz", CtrlOp.stopOp "r1"]

theorem stopRule_then_status_canceled_manually_witness :
    GetStatusRule envW "r1" (applyOps envW opsW (StopRule "r1" stW).1) =
      (applyOps envW opsW (StopRule "r1" stW).1, Except.ok "Stopped: canceled manually.") ∧
    Except.ok ("Running with metrics:\n" ++ "x") ≠
      (GetStatusRule envW "r1" (applyOps envW opsW (StopRule "r1" stW).1)).2 :=
  ⟨(stopRule_then_status_canceled_manually envW "r1" stW rsW rfl opsW).1,
   (stopRule_then_status_canceled_manually envW "r1" stW rsW rfl opsW).2 "x"⟩

/-- Claim C1 counterexample: DropRule on the present rule r1 succeeds (the
store deletion succeeds and the reply is the store's message), yet a Rule
State for r1 is still found in the Registry afterwards — the entry is not
removed, refuting the claim as stated. -/
theorem dropRule_counterexample_entry_not_removed :
    regGet stW.registry "r1" = some rsW ∧
    (DropRule envW "r1" stW).2 = Except.ok "Rule r1 is dropped." ∧
    (regGet (DropRule envW "r1" stW).1.registry "r1").isSome = true := by
  exact ⟨rfl, rfl, rfl⟩

/-- Claim C1 (amended): when DropRule succeeds on a rule present in the
Registry, the persisted definition is deleted via the store and the rule is
stopped — its topology is cancelled and Triggered becomes false — but the
entry is NOT removed from the Registry: get(id) still finds it afterwards. -/
theorem dropRule_stops_but_keeps_entry (env : Env) (name : String)
    (s : ServerState) (rs : RuleState) (r : String)
    (hreg : regGet s.registry name = some rs)
    (hdrop : env.execDrop name = .ok r) :
    (DropRule env name s).2 = Except.ok r ∧
    regGet (DropRule env name s).1.registry name =
      some { rs with Topology := { rs.Topology with cancelled := true }, Triggered := false } ∧
    rs.Topology.tid ∈ (DropRule env name s).1.cancelLog := by
  refine ⟨?_, ?_, ?_⟩ <;> simp [DropRule, hdrop, StopRule, hreg, regGet_regPut_self]

theorem dropRule_stops_but_keeps_entry_witness :
    (DropRule envW "r1" stW).2 = Except.ok "Rule r1 is dropped." ∧
    regGet (DropRule envW "r1" stW).1.registry "r1" =
      some { rsW with Topology := { rsW.Topology with cancelled := true }, Triggered := false } ∧
    rsW.Topology.tid ∈ (DropRule envW "r1" stW).1.cancelLog :=
  dropRule_stops_but_keeps_entry envW "r1" stW rsW "Rule r1 is dropped." rfl rfl

/-- Claim C2 counterexample: r1 is registered and running with the handle of
instance id rsW.Topology.tid before the call; RestartRule succeeds, and
afterwards the entry holds a handle with that very same instance id — the
Execution Handle was reused, not replaced by a new distinct instance,
refuting the claim as stated. -/
theorem restartRule_counterexample_handle_reused :
    regGet stW.registry "r1" = some rsW ∧
    (RestartRule envW "r1" stW).2 = Except.ok "Rule r1 was restarted." ∧
    regGet (RestartRule envW "r1" stW).1.registry "r1" =
      some { Name := "r1", Topology := { tid := rsW.Topology.tid, ctx := some { err := none }, cancelled := true }, Triggered := true } := by
  exact ⟨rfl, rfl, rfl⟩

/-- Claim C2 (amended): RestartRule on a registered rule succeeds and leaves
the rule with Triggered true, but its Execution Handle is the SAME topology
instance that was registered before the call (same instance id and context;
it was cancelled by the stop step and is then reused by the start step, which
only re-triggers the existing entry). -/
theorem restartRule_reuses_same_handle (env : Env) (name : String)
    (s : ServerState) (rs : RuleState)
    (h : regGet s.registry name = some rs) :
    (RestartRule env name s).2 = Except.ok ("Rule " ++ name ++ " was restarted.") ∧
    regGet (RestartRule env name s).1.registry name =
      some { rs with Topology := { rs.Topology with cancelled := true }, Triggered := true } := by
  refine ⟨?_, ?_⟩ <;>
    simp [RestartRule, StopRule, h, StartRule, doStartRule, regGet_regPut_self]

theorem restartRule_reuses_same_handle_witness :
    (RestartRule envW "r1" stW).2 = Except.ok ("Rule " ++ "r1" ++ " was restarted.") ∧
    regGet (RestartRule envW "r1" stW).1.registry "r1" =
      some { rsW with Topology := { rsW.Topology with cancelled := true }, Triggered := true } :=
  restartRule_reuses_same_handle envW "r1" stW rsW rfl

/-- Claim C3 counterexample: with two buffered fragments and no failed query,
GetQueryResult returns their concatenation, but the buffer afterwards holds
ten empty-string fragments (make with length 10), not zero fragments,
refuting the "drained to empty" claim as stated. -/
theorem getQueryResult_counterexample_not_emptied :
    (GetQueryResult 5 "q" stQ).2 = Except.ok "ab" ∧
    (GetQueryResult 5 "q" stQ).1.qr.Results = List.replicate 10 "" ∧
    0 < (GetQueryResult 5 "q" stQ).1.qr.Results.length := by
  exact ⟨rfl, rfl, by decide⟩

/-- Claim C3 (amended): a successful GetQueryResult (the query context
carries no error) returns the concatenation of all accumulated fragments and
updates lastFetch to the current time in every case; a non-empty buffer is
reset not to zero fragments but to ten empty-string fragments — whose
concatenation is the empty string, so a subsequent fetch returns "" — and an
empty buffer is left empty and yields the empty string. -/
theorem getQueryResult_drains_to_ten_empty (now : Int) (qid : String)
    (s : ServerState) (h : queryCtxErr s = none) :
    GetQueryResult now qid s =
      ({ s with qr := { LastFetch := now, Results := if 0 < s.qr.Results.length then List.replicate 10 "" else s.qr.Results } },
       Except.ok (String.join s.qr.Results)) ∧
    String.join (List.replicate 10 "") = "" := by
  refine ⟨?_, rfl⟩
  by_cases hlen : 0 < s.qr.Results.length
  · simp [GetQueryResult, h, hlen]
  · have hnil : s.qr.Results = [] :=
      List.length_eq_zero.mp (Nat.eq_zero_of_not_pos hlen)
    simp [GetQueryResult, h, hlen, hnil, String.join]

theorem getQueryResult_drains_to_ten_empty_witness :
    GetQueryResult 5 "q" stQ =
      ({ stQ with qr := { LastFetch := 5, Results := if 0 < stQ.qr.Results.length then List.replicate 10 "" else stQ.qr.Results } },
       Except.ok (String.join stQ.qr.Results)) ∧
    String.join (List.replicate 10 "") = "" :=
  getQueryResult_drains_to_ten_empty 5 "q" stQ rfl

end Kuiper
